import Mathlib

/-!
Shallow embedding of the Superstore dashboard (src/my_dashboard.py):
a loader that reads a CSV and coerces the `Order Date` column, and a
filter-and-summary engine over the loaded table.
-/

namespace Superstore

/-- A calendar date, as produced by parsing `Order Date`. -/
structure OrderDate where
  month : Nat
  day : Nat
  year : Nat
deriving DecidableEq, Repr

/-- One row of the loaded table.  Numeric columns are modelled as exact
rationals. -/
structure Row where
  region : String
  category : String
  orderDate : Option OrderDate
  sales : ℚ
  profit : ℚ
  discount : ℚ
deriving DecidableEq, Repr

/-- The loaded table: an ordered sequence of rows. -/
abbrev Table := List Row

/-- The user's dropdown selection: one value per attribute, where the
sentinel `"All"` means "no constraint". -/
structure FilterSelection where
  region : String
  category : String
deriving DecidableEq, Repr

/-- Filtering logic of `my_dashboard.py` lines 52-60: start from a copy of
the table, then conditionally filter by region, then by category. -/
def filtered_data (store_data : Table) (chosen_region chosen_category : String) : Table :=
  let fd := store_data
  let fd := if chosen_region ≠ "All"
            then fd.filter (fun row => row.region == chosen_region) else fd
  let fd := if chosen_category ≠ "All"
            then fd.filter (fun row => row.category == chosen_category) else fd
  fd

/-- Summary block computed in lines 72-84. -/
structure SummaryResult where
  total_sales : ℚ
  total_profit : ℚ
  avg_discount_percent : ℚ
deriving DecidableEq, Repr

/-- Sum of the Sales column of the filtered table (line 76). -/
def sum_sales (t : Table) : ℚ := (t.map Row.sales).sum

/-- Sum of the Profit column of the filtered table (line 77). -/
def sum_profit (t : Table) : ℚ := (t.map Row.profit).sum

/-- Sum of the `Discount` column, used by `.mean()`. -/
def sum_discount (t : Table) : ℚ := (t.map Row.discount).sum

/-- Mean of the Discount column times 100 (line 78). -/
def avg_discount_perc (t : Table) : ℚ := sum_discount t / (t.length : ℚ) * 100

/-- Lines 72-84: the summary is only computed when the filtered table is
non-empty. -/
def summary (t : Table) : Option SummaryResult :=
  if t.isEmpty then none
  else some { total_sales := sum_sales t
              total_profit := sum_profit t
              avg_discount_percent := avg_discount_perc t }

/-- The engine contract `apply(table, selection) -> (subset, summary)`. -/
def apply (t : Table) (s : FilterSelection) : Table × Option SummaryResult :=
  let sub := filtered_data t s.region s.category
  (sub, summary sub)

/-! ### Dataset loader (`get_data`, lines 14-29) -/

/-- Gregorian leap-year test, as validated by the date parser. -/
def isLeap (y : Nat) : Bool := (y % 4 == 0 && y % 100 != 0) || y % 400 == 0

/-- Number of days in a month, used to reject impossible calendar dates. -/
def daysInMonth (m y : Nat) : Nat :=
  if m = 2 then (if isLeap y then 29 else 28)
  else if m = 4 ∨ m = 6 ∨ m = 9 ∨ m = 11 then 30
  else 31

/-- Split a character sequence on `/`, keeping empty fields (the field
structure of the `%m/%d/%Y` pattern). -/
def splitSlash : List Char → List (List Char)
  | [] => [[]]
  | c :: cs =>
    match splitSlash cs with
    | [] => if c = '/' then [[], []] else [[c]]
    | p :: ps => if c = '/' then [] :: p :: ps else (c :: p) :: ps

/-- Read a non-empty all-digit field as a number; anything else fails. -/
def digitField (l : List Char) : Option Nat :=
  if l ≠ [] ∧ l.all Char.isDigit
  then some (l.foldl (fun n c => n * 10 + (c.toNat - 48)) 0)
  else none

/-- Strict parse of an `Order Date` string under the pattern `%m/%d/%Y`
(month/day/4-digit-year, `/`-separated, real calendar dates only), as done by
`pd.to_datetime(-, format=...)` on line 20.  Any string that does not match
yields `none` (the null date produced by `errors=coerce`). -/
def parseOrderDate (s : String) : Option OrderDate :=
  match splitSlash s.data with
  | [ms, ds, ys] =>
    match digitField ms, digitField ds, digitField ys with
    | some m, some d, some y =>
      if ms.length ≤ 2 ∧ ds.length ≤ 2 ∧ ys.length = 4 ∧
         1 ≤ m ∧ m ≤ 12 ∧ 1 ≤ d ∧ d ≤ daysInMonth m y
      then some ⟨m, d, y⟩ else none
    | _, _, _ => none
  | _ => none

/-- A raw CSV row before date conversion: the `Order Date` column is still
text, the other columns as in `Row`. -/
structure RawRow where
  region : String
  category : String
  orderDate : String
  sales : ℚ
  profit : ℚ
  discount : ℚ
deriving DecidableEq, Repr

/-- The file system visible to the loader: which paths hold a readable CSV. -/
abbrev FileSystem := String → Option (List RawRow)

/-- The loader's failure value (the `FileNotFoundError` branch, lines 23-26). -/
inductive LoadError where
  | notFound (path : String)
deriving DecidableEq, Repr

/-- Date conversion of line 20: every row's `Order Date` is replaced by its
parse under `%m/%d/%Y`, a failed parse becoming the null date. -/
def convertRow (r : RawRow) : Row :=
  { region := r.region
    category := r.category
    orderDate := parseOrderDate r.orderDate
    sales := r.sales
    profit := r.profit
    discount := r.discount }

/-- Loader of lines 15-26: read the CSV at `path`; on success convert the
`Order Date` column, on a missing file return the load error. -/
def get_data (fs : FileSystem) (path : String) : Except LoadError Table :=
  match fs path with
  | none => .error (.notFound path)
  | some raw => .ok (raw.map convertRow)

/-- What the page renders: either the warning of line 88 (load failed, no
content), or the filtered table and its summary. -/
inductive Output where
  | loadFailed (message : String)
  | content (subset : Table) (summaryResult : Option SummaryResult)
deriving DecidableEq, Repr

/-- The script's top-level flow: load, and only when loading succeeded
(line 36's `if store_data is not None`) run the filter and summary engine. -/
def dashboard (fs : FileSystem) (path : String) (sel : FilterSelection) : Output :=
  match get_data fs path with
  | .error _ => .loadFailed "Data loading failed, cannot display the dashboard content."
  | .ok store_data => .content (apply store_data sel).1 (apply store_data sel).2

/-! ### Dropdown options (lines 43-48) -/

/-- Helper for `uniqueVals`: keep the first occurrence of each value, given
the set of values already seen. -/
def uniqueAux (seen : List String) : List String → List String
  | [] => []
  | x :: xs => if x ∈ seen then uniqueAux seen xs else x :: uniqueAux (x :: seen) xs

/-- Model of the pandas unique operation: the distinct values of a column,
first occurrence first. -/
def uniqueVals (l : List String) : List String := uniqueAux [] l

/-- Model of sorting the unique column values: the distinct values of a
column in ascending lexical order. -/
def distinctValues (col : List String) : List String :=
  (uniqueVals col).insertionSort (· ≤ ·)

/-- Line 43: the Region dropdown options, with the sentinel prepended by the caller. -/
def region_options (t : Table) : List String :=
  "All" :: distinctValues (t.map Row.region)

/-- Line 47: the Category dropdown's options. -/
def category_options (t : Table) : List String :=
  "All" :: distinctValues (t.map Row.category)

/-! ### The script's mutable state (for the no-mutation claim) -/

/-- The two dataframe variables of the script during lines 52-60. -/
structure ScriptState where
  store_data : Table
  filtered_data : Table
deriving DecidableEq, Repr

/-- Lines 52-60 as steps on the script's state: line 52 copies `store_data`
into `filtered_data`, and each following `if` reassigns only `filtered_data`. -/
def runFilterSteps (store : Table) (chosen_region chosen_category : String) :
    ScriptState :=
  let s : ScriptState := { store_data := store, filtered_data := store }
  let s := if chosen_region ≠ "All"
           then { s with filtered_data :=
                    s.filtered_data.filter (fun row => row.region == chosen_region) }
           else s
  let s := if chosen_category ≠ "All"
           then { s with filtered_data :=
                    s.filtered_data.filter (fun row => row.category == chosen_category) }
           else s
  s

/-- The spec's alternative evaluation order for the two predicates: category
first, then region (nowhere in the source; written to compare with
`filtered_data`). -/
def filtered_data_category_first (store_data : Table)
    (chosen_region chosen_category : String) : Table :=
  let fd := store_data
  let fd := if chosen_category ≠ "All"
            then fd.filter (fun row => row.category == chosen_category) else fd
  let fd := if chosen_region ≠ "All"
            then fd.filter (fun row => row.region == chosen_region) else fd
  fd

/-- The spec's concrete scenario, first row. -/
def scenarioRow1 : Row :=
  { region := "West", category := "Furniture", orderDate := none
    sales := 100, profit := 10, discount := 1/10 }

/-- The spec's concrete scenario, second row. -/
def scenarioRow2 : Row :=
  { region := "East", category := "Furniture", orderDate := none
    sales := 200, profit := 40, discount := 1/5 }

/-- The spec's concrete scenario table. -/
def scenarioTable : Table := [scenarioRow1, scenarioRow2]

/-- A row whose `Region` column happens to contain the string `"All"`. -/
def allRegionRow : Row :=
  { region := "All", category := "Office Supplies", orderDate := none
    sales := 0, profit := 0, discount := 0 }

/-- A one-row table whose `Region` value collides with the sentinel. -/
def allRegionTable : Table := [allRegionRow]

/-- A raw row whose `Order Date` does not match `MM/DD/YYYY`. -/
def badDateRawRow : RawRow :=
  { region := "South", category := "Furniture", orderDate := "2024-13-40"
    sales := 1, profit := 1, discount := 0 }

/-- A raw row whose `Order Date` matches `MM/DD/YYYY`. -/
def goodDateRawRow : RawRow :=
  { region := "West", category := "Technology", orderDate := "11/08/2015"
    sales := 2, profit := 1, discount := 1/5 }

/-- A file system holding one CSV with a bad date row followed by a good one. -/
def badDateFS : FileSystem := fun _ => some [badDateRawRow, goodDateRawRow]

end Superstore

namespace Superstore

/-- The combined predicate the two sequential filters amount to. -/
def selPred (s : FilterSelection) (row : Row) : Bool :=
  (s.region == "All" || row.region == s.region) &&
  (s.category == "All" || row.category == s.category)

theorem filtered_data_eq_filter (t : Table) (r c : String) :
    filtered_data t r c =
      t.filter (fun row => (r == "All" || row.region == r) &&
                           (c == "All" || row.category == c)) := by
  unfold filtered_data
  by_cases hr : r = "All" <;> by_cases hc : c = "All"
  · simp [hr, hc, List.filter_filter]
  · have hc' : (c == "All") = false := by simp [hc]
    simp [hr, hc, hc', List.filter_filter]
  · have hr' : (r == "All") = false := by simp [hr]
    simp [hr, hc, hr', List.filter_filter]
  · have hr' : (r == "All") = false := by simp [hr]
    have hc' : (c == "All") = false := by simp [hc]
    simp [hr, hc, hr', hc', List.filter_filter, Bool.and_comm]

theorem selPred_iff (s : FilterSelection) (row : Row) :
    selPred s row = true ↔
      (s.region ≠ "All" → row.region = s.region) ∧
      (s.category ≠ "All" → row.category = s.category) := by
  simp [selPred, or_iff_not_imp_left]

theorem filtered_data_category_first_eq_filter (t : Table) (r c : String) :
    filtered_data_category_first t r c =
      t.filter (fun row => (r == "All" || row.region == r) &&
                           (c == "All" || row.category == c)) := by
  unfold filtered_data_category_first
  by_cases hr : r = "All" <;> by_cases hc : c = "All"
  · simp [hr, hc, List.filter_filter]
  · have hc' : (c == "All") = false := by simp [hc]
    simp [hr, hc, hc', List.filter_filter]
  · have hr' : (r == "All") = false := by simp [hr]
    simp [hr, hc, hr', List.filter_filter]
  · have hr' : (r == "All") = false := by simp [hr]
    have hc' : (c == "All") = false := by simp [hc]
    simp [hr, hc, hr', hc', List.filter_filter, Bool.and_comm]

theorem summary_eq_none_iff (t : Table) : summary t = none ↔ t = [] := by
  cases t <;> simp [summary]

theorem summary_of_ne_nil (t : Table) (h : t ≠ []) :
    summary t = some { total_sales := sum_sales t
                       total_profit := sum_profit t
                       avg_discount_percent := avg_discount_perc t } := by
  cases t with
  | nil => exact absurd rfl h
  | cons a l => simp [summary]

/-- C1: `apply(T, S)` keeps exactly the rows passing every non-`"All"`
equality predicate, conjunctively, and the subset is a sub-sequence of `T`
(original order preserved). -/
theorem apply_filters_conjunctive_sublist (t : Table) (s : FilterSelection) :
    (Superstore.apply t s).1 = t.filter (selPred s) ∧
    List.Sublist (Superstore.apply t s).1 t ∧
    ∀ row, row ∈ (Superstore.apply t s).1 ↔
      row ∈ t ∧ (s.region ≠ "All" → row.region = s.region) ∧
        (s.category ≠ "All" → row.category = s.category) := by
  have h1 : (Superstore.apply t s).1 = t.filter (selPred s) :=
    filtered_data_eq_filter t s.region s.category
  refine ⟨h1, ?_, ?_⟩
  · rw [h1]; exact List.filter_sublist t
  · intro row
    rw [h1, List.mem_filter, selPred_iff]

/-- C2: the summary is `none` exactly when the filtered subset is empty;
otherwise it holds the subset's sales sum, profit sum, and mean discount
times 100; and the spec's two-row scenario produces exactly the first row
with totals 100, 10 and average discount 10 percent. -/
theorem apply_summary_spec (t : Table) (s : FilterSelection) :
    ((Superstore.apply t s).2 = none ↔ (Superstore.apply t s).1 = []) ∧
    ((Superstore.apply t s).1 ≠ [] →
      (Superstore.apply t s).2 =
        some { total_sales := sum_sales (Superstore.apply t s).1
               total_profit := sum_profit (Superstore.apply t s).1
               avg_discount_percent := avg_discount_perc (Superstore.apply t s).1 }) ∧
    Superstore.apply scenarioTable ⟨"West", "All"⟩ =
      ([scenarioRow1], some { total_sales := 100, total_profit := 10
                              avg_discount_percent := 10 }) := by
  refine ⟨summary_eq_none_iff _, fun h => summary_of_ne_nil _ h, ?_⟩
  have hsub : (Superstore.apply scenarioTable ⟨"West", "All"⟩).1 = [scenarioRow1] := rfl
  have h2 : (Superstore.apply scenarioTable ⟨"West", "All"⟩).2 = summary [scenarioRow1] := by
    rw [show (Superstore.apply scenarioTable ⟨"West", "All"⟩).2
          = summary (Superstore.apply scenarioTable ⟨"West", "All"⟩).1 from rfl, hsub]
  have h3 : summary [scenarioRow1] =
      some { total_sales := 100, total_profit := 10, avg_discount_percent := 10 } := by
    rw [summary_of_ne_nil _ (by simp)]
    norm_num [sum_sales, sum_profit, avg_discount_perc, sum_discount, scenarioRow1]
  calc Superstore.apply scenarioTable ⟨"West", "All"⟩
      = ((Superstore.apply scenarioTable ⟨"West", "All"⟩).1,
         (Superstore.apply scenarioTable ⟨"West", "All"⟩).2) := rfl
    _ = ([scenarioRow1], some { total_sales := 100, total_profit := 10
                                avg_discount_percent := 10 }) := by rw [hsub, h2, h3]

theorem apply_summary_spec_witness :
    (Superstore.apply scenarioTable ⟨"West", "All"⟩).1 ≠ [] ∧
    (Superstore.apply scenarioTable ⟨"West", "All"⟩).2 =
      some { total_sales := sum_sales (Superstore.apply scenarioTable ⟨"West", "All"⟩).1
             total_profit := sum_profit (Superstore.apply scenarioTable ⟨"West", "All"⟩).1
             avg_discount_percent :=
               avg_discount_perc (Superstore.apply scenarioTable ⟨"West", "All"⟩).1 } :=
  ⟨by decide, (apply_summary_spec scenarioTable ⟨"West", "All"⟩).2.1 (by decide)⟩

/-- C3: the Region and Category predicates may be applied in either order:
region-then-category (the source's order) equals category-then-region. -/
theorem filter_order_independent (t : Table) (r c : String) :
    filtered_data t r c = filtered_data_category_first t r c := by
  rw [filtered_data_eq_filter, filtered_data_category_first_eq_filter]

/-- C4: the selection `{Region: "All", Category: "All"}` is an identity: the
subset is `T` itself and the summary is the whole-table summary, which for
non-empty `T` holds the whole-table aggregates. -/
theorem apply_all_all_identity (t : Table) :
    Superstore.apply t ⟨"All", "All"⟩ = (t, summary t) ∧
    (t ≠ [] → summary t = some { total_sales := sum_sales t
                                 total_profit := sum_profit t
                                 avg_discount_percent := avg_discount_perc t }) := by
  constructor
  · have h : filtered_data t "All" "All" = t := by simp [filtered_data]
    show (filtered_data t "All" "All", summary (filtered_data t "All" "All")) = (t, summary t)
    rw [h]
  · exact summary_of_ne_nil t

theorem apply_all_all_identity_witness :
    scenarioTable ≠ [] ∧
    Superstore.apply scenarioTable ⟨"All", "All"⟩ = (scenarioTable, summary scenarioTable) ∧
    summary scenarioTable = some { total_sales := sum_sales scenarioTable
                                   total_profit := sum_profit scenarioTable
                                   avg_discount_percent := avg_discount_perc scenarioTable } :=
  ⟨by decide, (apply_all_all_identity scenarioTable).1,
    (apply_all_all_identity scenarioTable).2 (by decide)⟩

/-- C5: filtering is idempotent: applying the same selection to its own
result subset returns that subset unchanged. -/
theorem filter_idempotent (t : Table) (s : FilterSelection) :
    (Superstore.apply ((Superstore.apply t s).1) s).1 = (Superstore.apply t s).1 := by
  show filtered_data (filtered_data t s.region s.category) s.region s.category
        = filtered_data t s.region s.category
  rw [filtered_data_eq_filter, filtered_data_eq_filter, List.filter_filter]
  simp [Bool.and_self]

/-- C6: the filtering steps never mutate the original table: after the copy
of line 52 only `filtered_data` is reassigned, so `store_data` is unchanged
and `filtered_data` holds the engine's subset. -/
theorem no_mutation_of_store_data (store : Table) (r c : String) :
    (runFilterSteps store r c).store_data = store ∧
    (runFilterSteps store r c).filtered_data = filtered_data store r c := by
  unfold runFilterSteps filtered_data
  by_cases hr : r = "All" <;> by_cases hc : c = "All" <;> simp [hr, hc]

/-- C7: a missing file yields the not-found load error, and the page then
renders only the warning: the engine is never invoked. -/
theorem load_notFound_halts (fs : FileSystem) (path : String) (sel : FilterSelection)
    (h : fs path = none) :
    get_data fs path = .error (.notFound path) ∧
    dashboard fs path sel =
      .loadFailed "Data loading failed, cannot display the dashboard content." := by
  have h1 : get_data fs path = .error (.notFound path) := by
    simp [get_data, h]
  exact ⟨h1, by simp [dashboard, h1]⟩

theorem load_notFound_halts_witness :
    (fun _ => none : FileSystem) "Superstore.csv" = none ∧
    (get_data (fun _ => none) "Superstore.csv" = .error (.notFound "Superstore.csv") ∧
     dashboard (fun _ => none) "Superstore.csv" ⟨"All", "All"⟩ =
       .loadFailed "Data loading failed, cannot display the dashboard content.") :=
  ⟨rfl, load_notFound_halts (fun _ => none) "Superstore.csv" ⟨"All", "All"⟩ rfl⟩

/-- C8: when the file exists, loading always succeeds: every raw row is kept
(a bad date blocks nothing) and each row's `Order Date` becomes its parse
under `%m/%d/%Y`, `none` on failure — e.g. `"2024-13-40"` becomes the null
date while `"11/08/2015"` parses. -/
theorem load_coerces_bad_dates (fs : FileSystem) (path : String) (raw : List RawRow)
    (h : fs path = some raw) :
    get_data fs path = .ok (raw.map convertRow) ∧
    (raw.map convertRow).length = raw.length ∧
    (∀ r ∈ raw, (convertRow r).orderDate = parseOrderDate r.orderDate) ∧
    parseOrderDate "2024-13-40" = none ∧
    parseOrderDate "11/08/2015" = some ⟨11, 8, 2015⟩ := by
  refine ⟨by simp [get_data, h], List.length_map _ _, fun r _ => rfl, by decide, by decide⟩

theorem load_coerces_bad_dates_witness :
    badDateFS "Superstore.csv" = some [badDateRawRow, goodDateRawRow] ∧
    (get_data badDateFS "Superstore.csv"
        = .ok ([badDateRawRow, goodDateRawRow].map convertRow) ∧
     ([badDateRawRow, goodDateRawRow].map convertRow).length
        = [badDateRawRow, goodDateRawRow].length ∧
     (∀ r ∈ [badDateRawRow, goodDateRawRow],
        (convertRow r).orderDate = parseOrderDate r.orderDate) ∧
     parseOrderDate "2024-13-40" = none ∧
     parseOrderDate "11/08/2015" = some ⟨11, 8, 2015⟩) :=
  ⟨rfl, load_coerces_bad_dates badDateFS "Superstore.csv" [badDateRawRow, goodDateRawRow] rfl⟩

theorem list_sum_le_length (l : List ℚ) (h : ∀ x ∈ l, x ≤ 1) :
    l.sum ≤ (l.length : ℚ) := by
  induction l with
  | nil => simp
  | cons a l ih =>
    simp only [List.sum_cons, List.length_cons]
    push_cast
    have ha := h a (List.mem_cons_self a l)
    have hl := ih (fun x hx => h x (List.mem_cons_of_mem a hx))
    linarith

/-- C9: over a non-empty subset whose discounts all lie in `[0, 1]`, the
summary exists and its `avg_discount_percent` lies in `[0, 100]`. -/
theorem avg_discount_percent_bounds (t : Table) (hne : t ≠ [])
    (hd : ∀ row ∈ t, 0 ≤ row.discount ∧ row.discount ≤ 1) :
    ∃ s, summary t = some s ∧ 0 ≤ s.avg_discount_percent ∧ s.avg_discount_percent ≤ 100 := by
  refine ⟨_, summary_of_ne_nil t hne, ?_, ?_⟩
  · have h0 : 0 ≤ (t.map Row.discount).sum := by
      apply List.sum_nonneg
      intro x hx
      obtain ⟨row, hrow, rfl⟩ := List.mem_map.mp hx
      exact (hd row hrow).1
    have hlen : (0 : ℚ) ≤ (t.length : ℚ) := by positivity
    show 0 ≤ sum_discount t / (t.length : ℚ) * 100
    have := div_nonneg h0 hlen
    unfold sum_discount
    positivity
  · have hlen : (0 : ℚ) < (t.length : ℚ) := by
      have : 0 < t.length := List.length_pos.mpr hne
      exact_mod_cast this
    have hsum : (t.map Row.discount).sum ≤ (t.length : ℚ) := by
      have h1 := list_sum_le_length (t.map Row.discount) ?_
      · rwa [List.length_map] at h1
      · intro x hx
        obtain ⟨row, hrow, rfl⟩ := List.mem_map.mp hx
        exact (hd row hrow).2
    show sum_discount t / (t.length : ℚ) * 100 ≤ 100
    have hdiv : sum_discount t / (t.length : ℚ) ≤ 1 := by
      rw [div_le_one hlen]
      exact hsum
    nlinarith [hdiv]

theorem avg_discount_percent_bounds_witness :
    allRegionTable ≠ [] ∧
    (∀ row ∈ allRegionTable, 0 ≤ row.discount ∧ row.discount ≤ 1) ∧
    ∃ s, summary allRegionTable = some s ∧
      0 ≤ s.avg_discount_percent ∧ s.avg_discount_percent ≤ 100 :=
  ⟨by decide, by decide,
    avg_discount_percent_bounds allRegionTable (by decide) (by decide)⟩

theorem mem_uniqueAux (a : String) :
    ∀ (l seen : List String), a ∈ uniqueAux seen l ↔ a ∈ l ∧ a ∉ seen := by
  intro l
  induction l with
  | nil => intro seen; simp [uniqueAux]
  | cons x xs ih =>
    intro seen
    by_cases hx : x ∈ seen
    · rw [uniqueAux, if_pos hx, ih seen]
      by_cases hax : a = x
      · subst hax; simp [hx]
      · simp [hax]
    · rw [uniqueAux, if_neg hx]
      simp only [List.mem_cons, ih (x :: seen)]
      by_cases hax : a = x
      · subst hax; simp [hx]
      · simp [hax]

theorem nodup_uniqueAux : ∀ (l seen : List String), (uniqueAux seen l).Nodup := by
  intro l
  induction l with
  | nil => intro seen; simp [uniqueAux]
  | cons x xs ih =>
    intro seen
    by_cases hx : x ∈ seen
    · rw [uniqueAux, if_pos hx]; exact ih seen
    · rw [uniqueAux, if_neg hx]
      refine List.nodup_cons.mpr ⟨?_, ih _⟩
      intro hmem
      exact ((mem_uniqueAux x xs (x :: seen)).mp hmem).2 (List.mem_cons_self x seen)

theorem mem_uniqueVals (a : String) (l : List String) : a ∈ uniqueVals l ↔ a ∈ l := by
  rw [uniqueVals, mem_uniqueAux]
  simp

/-- C10 counterexample: when the data's `Region` column itself contains the
string `"All"`, the sentinel is among the values `distinctValues` returns. -/
theorem distinctValues_contains_sentinel :
    "All" ∈ distinctValues (allRegionTable.map Row.region) := by
  unfold distinctValues
  refine (List.perm_insertionSort _ _).mem_iff.mpr ?_
  rw [mem_uniqueVals]
  decide

/-- C10 (amended): for both attributes, `distinctValues` returns exactly the
distinct values occurring in the column, sorted ascending with no
duplicates; it never adds the `"All"` sentinel itself (so `"All"` appears
among them only if present in the data), and the caller prepends `"All"`. -/
theorem distinctValues_sorted_nodup (t : Table) :
    ((distinctValues (t.map Row.region)).Sorted (· ≤ ·) ∧
     (distinctValues (t.map Row.region)).Nodup ∧
     ∀ a, a ∈ distinctValues (t.map Row.region) ↔ a ∈ t.map Row.region) ∧
    ((distinctValues (t.map Row.category)).Sorted (· ≤ ·) ∧
     (distinctValues (t.map Row.category)).Nodup ∧
     ∀ a, a ∈ distinctValues (t.map Row.category) ↔ a ∈ t.map Row.category) ∧
    region_options t = "All" :: distinctValues (t.map Row.region) ∧
    category_options t = "All" :: distinctValues (t.map Row.category) := by
  have main : ∀ col : List String, (distinctValues col).Sorted (· ≤ ·) ∧
      (distinctValues col).Nodup ∧ ∀ a, a ∈ distinctValues col ↔ a ∈ col := by
    intro col
    refine ⟨List.sorted_insertionSort _ _, ?_, ?_⟩
    · exact (List.perm_insertionSort _ _).nodup_iff.mpr (nodup_uniqueAux col [])
    · intro a
      rw [distinctValues, (List.perm_insertionSort _ _).mem_iff, mem_uniqueVals]
  exact ⟨main _, main _, rfl, rfl⟩

end Superstore

